import Mathlib

/-!
Verification development for the NES emulator core (cpu.rs, apu.rs, bus.rs,
opcodes.rs).  The Rust sources are shallowly embedded: machine integers
(u8/u16/u64) become `Nat` with explicit `% 2^w` wherever the source relies on
wrapping arithmetic, stateful methods become state-passing functions, and
fallible paths (unknown opcodes, KIL) return `Option`.  Field and function
names follow the source.
-/

set_option maxRecDepth 10000

/-- Lookup table for the length counter (apu.rs `LENGTH_COUNTER_TABLE`). -/
def LENGTH_COUNTER_TABLE : List Nat :=
  [10, 254, 20, 2, 40, 4, 80, 6, 160, 8, 60, 10, 14, 12, 26, 14, 12, 16, 24, 18,
   48, 20, 96, 22, 192, 24, 72, 26, 16, 28, 32, 30]

/-- Timer periods for the noise channel (apu.rs `NOISE_TIMER_PERIODS_NTSC`). -/
def NOISE_TIMER_PERIODS_NTSC : List Nat :=
  [4, 8, 16, 32, 64, 96, 128, 160, 202, 254, 380, 508, 762, 1016, 2034, 4068]

/-- Rate table for the DMC (apu.rs `DMC_RATE_TABLE_NTSC`). -/
def DMC_RATE_TABLE_NTSC : List Nat :=
  [428, 380, 340, 320, 286, 254, 226, 214, 190, 160, 142, 128, 106, 84, 72, 54]

/-- Volume envelope for pulse and noise channels (apu.rs `Envelope`). -/
structure Envelope where
  start_flag : Bool
  constant_volume : Bool
  loop_flag : Bool
  volume : Nat
  divider_period : Nat
  divider_value : Nat
  decay_level : Nat
deriving DecidableEq

/-- Default value of `Envelope` (all fields zeroed, from `#[derive(Default)]`). -/
def Envelope.default : Envelope :=
  ⟨false, false, false, 0, 0, 0, 0⟩

/-- Clocks the envelope generator (apu.rs `Envelope::clock`). -/
def Envelope.clock (e : Envelope) : Envelope :=
  if e.start_flag then
    { e with start_flag := false, decay_level := 15, divider_value := e.divider_period }
  else if e.divider_value > 0 then
    { e with divider_value := e.divider_value - 1 }
  else
    let e := { e with divider_value := e.divider_period }
    if e.decay_level > 0 then { e with decay_level := e.decay_level - 1 }
    else if e.loop_flag then { e with decay_level := 15 }
    else e

/-- Current output volume of the envelope (apu.rs `Envelope::output`). -/
def Envelope.output (e : Envelope) : Nat :=
  if e.constant_volume then e.volume else e.decay_level

/-- Frequency sweep unit for the pulse channels (apu.rs `SweepUnit`). -/
structure SweepUnit where
  enabled : Bool
  negate : Bool
  period : Nat
  shift : Nat
  reload_flag : Bool
  divider_value : Nat
deriving DecidableEq

/-- Default value of `SweepUnit`. -/
def SweepUnit.default : SweepUnit :=
  ⟨false, false, 0, 0, false, 0⟩

/-- Wrapping 16-bit subtraction (`u16::wrapping_sub`). -/
def wsub16 (a b : Nat) : Nat := (a + 65536 - b % 65536) % 65536

/-- Wrapping 16-bit addition (`u16::wrapping_add`). -/
def wadd16 (a b : Nat) : Nat := (a + b) % 65536

/-- Target period of the sweep (apu.rs `SweepUnit::calculate_target_period`).
Pulse 1 (`is_pulse2 = false`) has an extra subtraction in negate mode. -/
def SweepUnit.calculate_target_period (s : SweepUnit) (timer_period : Nat)
    (is_pulse2 : Bool) : Nat :=
  let change := timer_period >>> s.shift
  if s.negate then
    wsub16 (wsub16 timer_period change) (if is_pulse2 then 0 else 1)
  else
    wadd16 timer_period change

/-- Clocks the sweep unit; returns the updated unit and the (possibly updated)
timer period it mutates through `&mut` in the source (apu.rs `SweepUnit::clock`). -/
def SweepUnit.clock (s : SweepUnit) (timer_period : Nat) (is_pulse2 : Bool) :
    SweepUnit × Nat :=
  let target_period := s.calculate_target_period timer_period is_pulse2
  let mute := timer_period < 8 ∨ target_period > 0x7FF
  let tp :=
    if s.divider_value = 0 ∧ s.enabled ∧ s.shift > 0 ∧ ¬mute then target_period
    else timer_period
  let s :=
    if s.divider_value = 0 ∨ s.reload_flag then
      { s with divider_value := s.period, reload_flag := false }
    else
      { s with divider_value := s.divider_value - 1 }
  (s, tp)

/-- Whether the sweep unit is muting the channel (apu.rs `SweepUnit::is_muting`). -/
def SweepUnit.is_muting (s : SweepUnit) (timer_period : Nat) (is_pulse2 : Bool) : Prop :=
  timer_period < 8 ∨ s.calculate_target_period timer_period is_pulse2 > 0x7FF

/-- One of the two pulse wave channels (apu.rs `PulseChannel`). -/
structure PulseChannel where
  enabled : Bool
  is_pulse2 : Bool
  duty_cycle : Nat
  envelope : Envelope
  sweep : SweepUnit
  timer_period : Nat
  timer_value : Nat
  length_counter : Nat
  duty_sequencer : Nat
deriving DecidableEq

/-- Constructor of a pulse channel (apu.rs `PulseChannel::new`). -/
def PulseChannel.new (is_pulse2 : Bool) : PulseChannel :=
  ⟨false, is_pulse2, 0, Envelope.default, SweepUnit.default, 0, 0, 0, 0⟩

/-- Clocks the pulse channel timer (apu.rs `PulseChannel::clock_timer`). -/
def PulseChannel.clock_timer (p : PulseChannel) : PulseChannel :=
  if p.timer_value = 0 then
    { p with timer_value := p.timer_period, duty_sequencer := (p.duty_sequencer + 1) % 8 }
  else
    { p with timer_value := p.timer_value - 1 }

/-- Clocks the pulse channel envelope (apu.rs `PulseChannel::clock_envelope`). -/
def PulseChannel.clock_envelope (p : PulseChannel) : PulseChannel :=
  { p with envelope := p.envelope.clock }

/-- Clocks the pulse channel sweep unit (apu.rs `PulseChannel::clock_sweep`). -/
def PulseChannel.clock_sweep (p : PulseChannel) : PulseChannel :=
  let r := p.sweep.clock p.timer_period p.is_pulse2
  { p with sweep := r.1, timer_period := r.2 }

/-- Clocks the pulse channel length counter (apu.rs `PulseChannel::clock_length_counter`). -/
def PulseChannel.clock_length_counter (p : PulseChannel) : PulseChannel :=
  if ¬p.envelope.loop_flag ∧ p.length_counter > 0 then
    { p with length_counter := p.length_counter - 1 }
  else p

/-- The triangle wave channel (apu.rs `TriangleChannel`). -/
structure TriangleChannel where
  enabled : Bool
  length_counter_halt : Bool
  control_flag : Bool
  linear_counter_load : Nat
  linear_counter_value : Nat
  timer_period : Nat
  timer_value : Nat
  length_counter : Nat
  sequencer_step : Nat
deriving DecidableEq

/-- Default value of `TriangleChannel`. -/
def TriangleChannel.default : TriangleChannel :=
  ⟨false, false, false, 0, 0, 0, 0, 0, 0⟩

/-- Clocks the triangle channel timer (apu.rs `TriangleChannel::clock_timer`). -/
def TriangleChannel.clock_timer (t : TriangleChannel) : TriangleChannel :=
  if t.timer_value > 0 then
    { t with timer_value := t.timer_value - 1 }
  else
    let t := { t with timer_value := t.timer_period }
    if t.length_counter > 0 ∧ t.linear_counter_value > 0 then
      { t with sequencer_step := (t.sequencer_step + 1) % 32 }
    else t

/-- Clocks the triangle linear counter (apu.rs `TriangleChannel::clock_linear_counter`). -/
def TriangleChannel.clock_linear_counter (t : TriangleChannel) : TriangleChannel :=
  let t :=
    if t.control_flag then
      { t with linear_counter_value := t.linear_counter_load }
    else if t.linear_counter_value > 0 then
      { t with linear_counter_value := t.linear_counter_value - 1 }
    else t
  if ¬t.length_counter_halt then { t with control_flag := false } else t

/-- Clocks the triangle length counter (apu.rs `TriangleChannel::clock_length_counter`). -/
def TriangleChannel.clock_length_counter (t : TriangleChannel) : TriangleChannel :=
  if ¬t.length_counter_halt ∧ t.length_counter > 0 then
    { t with length_counter := t.length_counter - 1 }
  else t

/-- The noise channel (apu.rs `NoiseChannel`). -/
structure NoiseChannel where
  enabled : Bool
  mode : Bool
  shift_register : Nat
  envelope : Envelope
  timer_period : Nat
  timer_value : Nat
  length_counter : Nat
deriving DecidableEq

/-- Default value of `NoiseChannel`; the LFSR must be initialized to 1
(apu.rs `impl Default for NoiseChannel`). -/
def NoiseChannel.default : NoiseChannel :=
  ⟨false, false, 1, Envelope.default, 0, 0, 0⟩

/-- Clocks the linear-feedback shift register (apu.rs `NoiseChannel::clock_shift_register`). -/
def NoiseChannel.clock_shift_register (n : NoiseChannel) : NoiseChannel :=
  let feedback_bit :=
    if n.mode then (n.shift_register >>> 6) &&& 1 else (n.shift_register >>> 1) &&& 1
  let feedback := (n.shift_register &&& 1) ^^^ feedback_bit
  let sr := n.shift_register >>> 1
  { n with shift_register := sr ||| (feedback <<< 14) }

/-- Clocks the noise channel timer (apu.rs `NoiseChannel::clock_timer`). -/
def NoiseChannel.clock_timer (n : NoiseChannel) : NoiseChannel :=
  if n.timer_period = 0 then n
  else if n.timer_value = 0 then
    ({ n with timer_value := n.timer_period }).clock_shift_register
  else
    { n with timer_value := n.timer_value - 1 }

/-- Clocks the noise channel envelope (apu.rs `NoiseChannel::clock_envelope`). -/
def NoiseChannel.clock_envelope (n : NoiseChannel) : NoiseChannel :=
  { n with envelope := n.envelope.clock }

/-- Clocks the noise channel length counter (apu.rs `NoiseChannel::clock_length_counter`). -/
def NoiseChannel.clock_length_counter (n : NoiseChannel) : NoiseChannel :=
  if ¬n.envelope.loop_flag ∧ n.length_counter > 0 then
    { n with length_counter := n.length_counter - 1 }
  else n

/-- The Delta Modulation Channel (apu.rs `DmcChannel`). -/
structure DmcChannel where
  enabled : Bool
  irq_enabled : Bool
  loop_flag : Bool
  irq_pending : Bool
  timer_period : Nat
  timer_value : Nat
  sample_address : Nat
  sample_length : Nat
  current_address : Nat
  current_length : Nat
  shift_register : Nat
  bits_remaining : Nat
  output_level : Nat
  sample_buffer : Option Nat
deriving DecidableEq

/-- Default value of `DmcChannel`. -/
def DmcChannel.default : DmcChannel :=
  ⟨false, false, false, false, 0, 0, 0, 0, 0, 0, 0, 0, 0, none⟩

/-- Clocks the DMC output unit (apu.rs `DmcChannel::clock_output_unit`). -/
def DmcChannel.clock_output_unit (d : DmcChannel) : DmcChannel :=
  let d :=
    if d.bits_remaining = 0 then
      let d := { d with bits_remaining := 8 }
      match d.sample_buffer with
      | some byte => { d with shift_register := byte, sample_buffer := none }
      | none => d
    else d
  if d.bits_remaining > 0 then
    let d :=
      if d.sample_buffer.isSome ∨ d.current_length > 0 then
        if d.shift_register &&& 0x01 = 1 then
          if d.output_level ≤ 125 then { d with output_level := d.output_level + 2 } else d
        else
          if d.output_level ≥ 2 then { d with output_level := d.output_level - 2 } else d
      else d
    { d with shift_register := d.shift_register >>> 1, bits_remaining := d.bits_remaining - 1 }
  else d

/-- Clocks the DMC timer (apu.rs `DmcChannel::clock_timer`). -/
def DmcChannel.clock_timer (d : DmcChannel) : DmcChannel :=
  if d.timer_period = 0 then d
  else if d.timer_value > 0 then
    { d with timer_value := d.timer_value - 1 }
  else
    ({ d with timer_value := d.timer_period }).clock_output_unit

/-- Frame counter mode (apu.rs `FrameCounterMode`). -/
inductive FrameCounterMode where
  | fourStep
  | fiveStep
deriving DecidableEq

/-- The frame counter (apu.rs `FrameCounter`). -/
structure FrameCounter where
  mode : FrameCounterMode
  interrupt_inhibit : Bool
  interrupt_flag : Bool
deriving DecidableEq

/-- Default value of `FrameCounter`. -/
def FrameCounter.default : FrameCounter :=
  ⟨FrameCounterMode.fourStep, false, false⟩

/-- The main APU state (apu.rs `Apu`). -/
structure Apu where
  pulse1 : PulseChannel
  pulse2 : PulseChannel
  triangle : TriangleChannel
  noise : NoiseChannel
  dmc : DmcChannel
  frame_counter : FrameCounter
  frame_cycle : Nat
  cycles : Nat
  dmc_read_request : Option Nat
  time_counter : Nat
  cycles_per_sample : Nat
deriving DecidableEq

/-- Default value of `Apu` (apu.rs `impl Default for Apu`). -/
def Apu.default : Apu :=
  { pulse1 := PulseChannel.new false
    pulse2 := PulseChannel.new true
    triangle := TriangleChannel.default
    noise := NoiseChannel.default
    dmc := DmcChannel.default
    frame_counter := FrameCounter.default
    frame_cycle := 0
    cycles := 0
    dmc_read_request := none
    time_counter := 0
    cycles_per_sample := 0 }

/-- Quarter-frame event (apu.rs `Apu::clock_envelopes_and_linear_counter`). -/
def Apu.clock_envelopes_and_linear_counter (a : Apu) : Apu :=
  { a with
    pulse1 := a.pulse1.clock_envelope
    pulse2 := a.pulse2.clock_envelope
    triangle := a.triangle.clock_linear_counter
    noise := a.noise.clock_envelope }

/-- Half-frame event (apu.rs `Apu::clock_length_counters_and_sweep_units`). -/
def Apu.clock_length_counters_and_sweep_units (a : Apu) : Apu :=
  { a with
    pulse1 := a.pulse1.clock_length_counter.clock_sweep
    pulse2 := a.pulse2.clock_length_counter.clock_sweep
    triangle := a.triangle.clock_length_counter
    noise := a.noise.clock_length_counter }

/-- Raises a DMC fetch request when the sample buffer is empty and bytes remain
(apu.rs `Apu::check_dmc_read_request`). -/
def Apu.check_dmc_read_request (a : Apu) : Apu :=
  if a.dmc.sample_buffer = none ∧ a.dmc.current_length > 0 then
    { a with dmc_read_request := some a.dmc.current_address }
  else a

/-- Lets the bus see a pending DMC fetch request (apu.rs `Apu::dmc_peek_read_request`). -/
def Apu.dmc_peek_read_request (a : Apu) : Option Nat :=
  a.dmc_read_request

/-- Frame-counter step of `Apu::clock`, the `match self.frame_counter.mode`
block at the end of the even-cycle branch (apu.rs lines 519-554). -/
def Apu.frame_counter_step (a : Apu) : Apu :=
  match a.frame_counter.mode with
  | FrameCounterMode.fourStep =>
    if a.frame_cycle = 3729 then a.clock_envelopes_and_linear_counter
    else if a.frame_cycle = 7457 then
      a.clock_envelopes_and_linear_counter.clock_length_counters_and_sweep_units
    else if a.frame_cycle = 11186 then a.clock_envelopes_and_linear_counter
    else if a.frame_cycle = 14915 then
      let a := a.clock_envelopes_and_linear_counter.clock_length_counters_and_sweep_units
      let a :=
        if ¬a.frame_counter.interrupt_inhibit then
          { a with frame_counter := { a.frame_counter with interrupt_flag := true } }
        else a
      { a with frame_cycle := 0 }
    else a
  | FrameCounterMode.fiveStep =>
    if a.frame_cycle = 3729 then a.clock_envelopes_and_linear_counter
    else if a.frame_cycle = 7457 then
      a.clock_envelopes_and_linear_counter.clock_length_counters_and_sweep_units
    else if a.frame_cycle = 11186 then a.clock_envelopes_and_linear_counter
    else if a.frame_cycle = 18641 then
      let a := a.clock_envelopes_and_linear_counter.clock_length_counters_and_sweep_units
      { a with frame_cycle := 0 }
    else a

/-- Main APU clock, called once per CPU cycle (apu.rs `Apu::clock`).  The
triangle timer is clocked unconditionally; on odd APU `cycles` only the DMC
timer is additionally clocked, on even `cycles` the pulse, noise and DMC timers
and the frame counter advance. -/
def Apu.clock (a : Apu) : Apu :=
  let a := { a with time_counter := a.time_counter + 1, triangle := a.triangle.clock_timer }
  let a := { a with cycles := a.cycles + 1 }
  if a.cycles % 2 ≠ 0 then
    ({ a with dmc := a.dmc.clock_timer }).check_dmc_read_request
  else
    let a := { a with
      pulse1 := a.pulse1.clock_timer
      pulse2 := a.pulse2.clock_timer
      noise := a.noise.clock_timer
      dmc := a.dmc.clock_timer }
    let a := a.check_dmc_read_request
    let a := { a with frame_cycle := a.frame_cycle + 1 }
    a.frame_counter_step

/-- Provides the DMC with a fetched sample byte (apu.rs `Apu::dmc_provide_data`).
The `current_length -= 1` of the source is a `u16` decrement, hence the wrapping
`% 65536` form. -/
def Apu.dmc_provide_data (a : Apu) (data : Nat) : Apu :=
  let d0 := a.dmc
  let addr1 := (d0.current_address + 1) % 65536
  let addr2 := if addr1 = 0 then 0x8000 else addr1
  let len1 := (d0.current_length + 65535) % 65536
  let d1 := { d0 with
    sample_buffer := some data
    current_address := addr2
    current_length := len1 }
  let d2 :=
    if len1 = 0 then
      if d1.loop_flag then
        { d1 with current_address := d1.sample_address, current_length := d1.sample_length }
      else if d1.irq_enabled then
        { d1 with irq_pending := true }
      else d1
    else d1
  { a with dmc := d2, dmc_read_request := none }

/-- Writes a pulse channel register (apu.rs `Apu::write_pulse_register`). -/
def Apu.write_pulse_register (p : PulseChannel) (addr data : Nat) : PulseChannel :=
  match addr &&& 0x03 with
  | 0 =>
    let dp := data &&& 0x0F
    { p with
      duty_cycle := data >>> 6
      envelope := { p.envelope with
        loop_flag := (data >>> 5) &&& 1 == 1
        constant_volume := (data >>> 4) &&& 1 == 1
        divider_period := dp
        volume := dp } }
  | 1 =>
    { p with sweep := { p.sweep with
        enabled := (data >>> 7) &&& 1 == 1
        period := (data >>> 4) &&& 0x07
        negate := (data >>> 3) &&& 1 == 1
        shift := data &&& 0x07
        reload_flag := true } }
  | 2 =>
    { p with timer_period := (p.timer_period &&& 0xFF00) ||| data }
  | 3 =>
    let p := { p with timer_period := (p.timer_period &&& 0x00FF) ||| ((data &&& 0x07) <<< 8) }
    let p :=
      if p.enabled then { p with length_counter := LENGTH_COUNTER_TABLE.getD (data >>> 3) 0 }
      else p
    { p with envelope := { p.envelope with start_flag := true }, duty_sequencer := 0 }
  | _ => p

/-- Writes a triangle channel register (apu.rs `Apu::write_triangle_register`). -/
def Apu.write_triangle_register (t : TriangleChannel) (addr data : Nat) : TriangleChannel :=
  match addr &&& 0x03 with
  | 0 =>
    let t := { t with length_counter_halt := (data >>> 7) &&& 1 == 1 }
    { t with control_flag := t.length_counter_halt, linear_counter_load := data &&& 0x7F }
  | 1 => t
  | 2 =>
    { t with timer_period := (t.timer_period &&& 0xFF00) ||| data }
  | 3 =>
    let t :=
      if t.enabled then { t with length_counter := LENGTH_COUNTER_TABLE.getD (data >>> 3) 0 }
      else t
    let t := { t with timer_period := (t.timer_period &&& 0x00FF) ||| ((data &&& 0x07) <<< 8) }
    { t with control_flag := true }
  | _ => t

/-- Writes a noise channel register (apu.rs `Apu::write_noise_register`). -/
def Apu.write_noise_register (n : NoiseChannel) (addr data : Nat) : NoiseChannel :=
  if addr = 0x400C then
    let dp := data &&& 0x0F
    { n with envelope := { n.envelope with
        loop_flag := (data >>> 5) &&& 1 == 1
        constant_volume := (data >>> 4) &&& 1 == 1
        divider_period := dp
        volume := dp } }
  else if addr = 0x400E then
    { n with
      mode := (data >>> 7) &&& 1 == 1
      timer_period := NOISE_TIMER_PERIODS_NTSC.getD (data &&& 0x0F) 0 }
  else if addr = 0x400F then
    let n :=
      if n.enabled then { n with length_counter := LENGTH_COUNTER_TABLE.getD (data >>> 3) 0 }
      else n
    { n with envelope := { n.envelope with start_flag := true } }
  else n

/-- Writes a DMC register (apu.rs `Apu::write_dmc_register`).  Note that the
write to 0x4010 loads the timer period as the NTSC rate-table value
divided by 2. -/
def Apu.write_dmc_register (dmc : DmcChannel) (addr data : Nat) : DmcChannel :=
  if addr = 0x4010 then
    let dmc := { dmc with irq_enabled := (data >>> 7) &&& 1 == 1 }
    let dmc := if ¬dmc.irq_enabled then { dmc with irq_pending := false } else dmc
    { dmc with
      loop_flag := (data >>> 6) &&& 1 == 1
      timer_period := DMC_RATE_TABLE_NTSC.getD (data &&& 0x0F) 0 / 2 }
  else if addr = 0x4011 then
    { dmc with output_level := data &&& 0x7F }
  else if addr = 0x4012 then
    { dmc with sample_address := 0xC000 + data * 64 }
  else if addr = 0x4013 then
    { dmc with sample_length := data * 16 + 1 }
  else dmc

/-- Handles the write to the status register 0x4015 (apu.rs `Apu::cpu_write`,
`0x4015` arm). -/
def Apu.write_status_register (a : Apu) (data : Nat) : Apu :=
  let a := { a with
    pulse1 := { a.pulse1 with enabled := data &&& 0x01 != 0 }
    pulse2 := { a.pulse2 with enabled := data &&& 0x02 != 0 }
    triangle := { a.triangle with enabled := data &&& 0x04 != 0 }
    noise := { a.noise with enabled := data &&& 0x08 != 0 }
    dmc := { a.dmc with enabled := data &&& 0x10 != 0 } }
  let a := if ¬a.pulse1.enabled then { a with pulse1 := { a.pulse1 with length_counter := 0 } } else a
  let a := if ¬a.pulse2.enabled then { a with pulse2 := { a.pulse2 with length_counter := 0 } } else a
  let a := if ¬a.triangle.enabled then { a with triangle := { a.triangle with length_counter := 0 } } else a
  let a := if ¬a.noise.enabled then { a with noise := { a.noise with length_counter := 0 } } else a
  let a :=
    if ¬a.dmc.enabled then { a with dmc := { a.dmc with current_length := 0 } }
    else if a.dmc.current_length = 0 then
      { a with dmc := { a.dmc with
          current_address := a.dmc.sample_address
          current_length := a.dmc.sample_length } }
    else a
  { a with dmc := { a.dmc with irq_pending := false } }

/-- Handles the write to the frame-counter control register 0x4017
(apu.rs `Apu::cpu_write`, `0x4017` arm). -/
def Apu.write_frame_counter_register (a : Apu) (data : Nat) : Apu :=
  let mode :=
    if data &&& 0x80 = 0 then FrameCounterMode.fourStep else FrameCounterMode.fiveStep
  let a := { a with
    frame_counter := { a.frame_counter with
      mode := mode
      interrupt_inhibit := data &&& 0x40 != 0 }
    frame_cycle := 0 }
  if a.frame_counter.mode = FrameCounterMode.fiveStep then
    a.clock_envelopes_and_linear_counter.clock_length_counters_and_sweep_units
  else a

/-- Handles CPU writes to APU registers (apu.rs `Apu::cpu_write`). -/
def Apu.cpu_write (a : Apu) (addr data : Nat) : Apu :=
  if 0x4000 ≤ addr ∧ addr ≤ 0x4003 then
    { a with pulse1 := Apu.write_pulse_register a.pulse1 addr data }
  else if 0x4004 ≤ addr ∧ addr ≤ 0x4007 then
    { a with pulse2 := Apu.write_pulse_register a.pulse2 addr data }
  else if 0x4008 ≤ addr ∧ addr ≤ 0x400B then
    { a with triangle := Apu.write_triangle_register a.triangle addr data }
  else if 0x400C ≤ addr ∧ addr ≤ 0x400F then
    { a with noise := Apu.write_noise_register a.noise addr data }
  else if 0x4010 ≤ addr ∧ addr ≤ 0x4013 then
    { a with dmc := Apu.write_dmc_register a.dmc addr data }
  else if addr = 0x4015 then
    a.write_status_register data
  else if addr = 0x4017 then
    a.write_frame_counter_register data
  else a

/-- Handles CPU reads from APU registers; returns the read byte and the updated
state (apu.rs `Apu::cpu_read`).  Only 0x4015 is decoded; reading it clears the
frame-counter interrupt flag. -/
def Apu.cpu_read (a : Apu) (addr : Nat) : Nat × Apu :=
  if addr = 0x4015 then
    let status := 0
    let status := if a.pulse1.length_counter > 0 then status ||| 0x01 else status
    let status := if a.pulse2.length_counter > 0 then status ||| 0x02 else status
    let status := if a.triangle.length_counter > 0 then status ||| 0x04 else status
    let status := if a.noise.length_counter > 0 then status ||| 0x08 else status
    let status := if a.dmc.current_length > 0 then status ||| 0x10 else status
    let status := if a.dmc.irq_pending then status ||| 0x80 else status
    (status, { a with frame_counter := { a.frame_counter with interrupt_flag := false } })
  else
    (0, a)

/-- One externally-triggered APU operation: a CPU-cycle clock, a register
write, a register read, or the bus delivering a DMC sample byte.  These are
exactly the entry points of `impl Apu` that mutate state. -/
inductive ApuOp where
  | clock
  | write (addr data : Nat)
  | read (addr : Nat)
  | provideData (data : Nat)
deriving DecidableEq

/-- Applies one APU operation. -/
def applyOp (a : Apu) : ApuOp → Apu
  | ApuOp.clock => a.clock
  | ApuOp.write addr data => a.cpu_write addr data
  | ApuOp.read addr => (a.cpu_read addr).2
  | ApuOp.provideData data => a.dmc_provide_data data

/-- Applies a sequence of APU operations in order; the reachable APU states are
exactly `applyOps Apu.default ops`. -/
def applyOps (a : Apu) (ops : List ApuOp) : Apu :=
  ops.foldl applyOp a

/-- Ghost counters recording how many times each channel timer's `clock_timer`
has been invoked. -/
structure TimerCounts where
  triangle_timer : Nat
  pulse1_timer : Nat
  pulse2_timer : Nat
  noise_timer : Nat
  dmc_timer : Nat
deriving DecidableEq

/-- Instrumented copy of `Apu.clock`: identical state transition, but each
channel-timer clock also bumps the corresponding ghost counter. -/
def Apu.clock_counted (a : Apu) (t : TimerCounts) : Apu × TimerCounts :=
  let a := { a with time_counter := a.time_counter + 1, triangle := a.triangle.clock_timer }
  let t := { t with triangle_timer := t.triangle_timer + 1 }
  let a := { a with cycles := a.cycles + 1 }
  if a.cycles % 2 ≠ 0 then
    (({ a with dmc := a.dmc.clock_timer }).check_dmc_read_request,
     { t with dmc_timer := t.dmc_timer + 1 })
  else
    let a := { a with
      pulse1 := a.pulse1.clock_timer
      pulse2 := a.pulse2.clock_timer
      noise := a.noise.clock_timer
      dmc := a.dmc.clock_timer }
    let t := { t with
      pulse1_timer := t.pulse1_timer + 1
      pulse2_timer := t.pulse2_timer + 1
      noise_timer := t.noise_timer + 1
      dmc_timer := t.dmc_timer + 1 }
    let a := a.check_dmc_read_request
    let a := { a with frame_cycle := a.frame_cycle + 1 }
    (a.frame_counter_step, t)

/-- State and ghost timer counts after `n` invocations of `Apu::clock` starting
from the default APU. -/
def clockedN : Nat → Apu × TimerCounts
  | 0 => (Apu.default, ⟨0, 0, 0, 0, 0⟩)
  | n + 1 => (clockedN n).1.clock_counted (clockedN n).2

/-- Bus state (bus.rs `Bus`), restricted to the pieces the CPU/APU clocking
contract involves: 2 KiB CPU RAM, PRG-ROM, the owned APU, and cycle counters.
The owned PPU is projected to the running count of PPU cycles it has been
advanced by (`NesPPU::tick(k)` advances exactly `k` PPU cycles). -/
structure BusModel where
  cpu_vram : Nat → Nat
  prg_rom : List Nat
  apu : Apu
  ppu_cycles : Nat
  cycles : Nat

/-- Reads a PRG-ROM byte with 16 KiB mirroring (bus.rs `Bus::read_prg_rom`). -/
def BusModel.read_prg_rom (b : BusModel) (addr : Nat) : Nat :=
  let a := addr - 0x8000
  let a := if b.prg_rom.length = 0x4000 ∧ 0x4000 ≤ a then a % 0x4000 else a
  b.prg_rom.getD a 0

/-- One iteration of the per-CPU-cycle loop in `Bus::tick`: clock the APU once,
then service any DMC fetch request from RAM or PRG-ROM (bus.rs lines 53-67). -/
def BusModel.apu_cycle_step (b : BusModel) : BusModel :=
  let apu := b.apu.clock
  match apu.dmc_peek_read_request with
  | some addr =>
    let data :=
      if addr ≤ 0x1FFF then b.cpu_vram (addr &&& 0x07FF)
      else if 0x8000 ≤ addr ∧ addr ≤ 0xFFFF then b.read_prg_rom addr
      else 0
    { b with apu := apu.dmc_provide_data data }
  | none => { b with apu := apu }

/-- Applies a function `n` times (the `for _ in 0..cycles` loop). -/
def applyN (f : α → α) : Nat → α → α
  | 0, x => x
  | n + 1, x => applyN f n (f x)

/-- Advances the bus by `cycles` CPU cycles (bus.rs `Bus::tick`): the APU is
clocked once per CPU cycle (with DMC fetch servicing), then the PPU is advanced
by `cycles * 3` computed in `u8` arithmetic — hence the `% 256`. -/
def BusModel.tick (b : BusModel) (cycles : Nat) : BusModel :=
  let b := { b with cycles := b.cycles + cycles }
  let b := applyN BusModel.apu_cycle_step cycles b
  { b with ppu_cycles := b.ppu_cycles + (cycles * 3) % 256 }

/-- CARRY flag bit (cpu.rs `CpuFlags::CARRY`). -/
def flagCARRY : Nat := 0x01

/-- ZERO flag bit (cpu.rs `CpuFlags::ZERO`). -/
def flagZERO : Nat := 0x02

/-- INTERRUPT_DISABLE flag bit (cpu.rs `CpuFlags::INTERRUPT_DISABLE`). -/
def flagINTERRUPT_DISABLE : Nat := 0x04

/-- DECIMAL_MODE flag bit (cpu.rs `CpuFlags::DECIMAL_MODE`). -/
def flagDECIMAL_MODE : Nat := 0x08

/-- BREAK flag bit (cpu.rs `CpuFlags::BREAK`). -/
def flagBREAK : Nat := 0x10

/-- UNUSED flag bit 5 (cpu.rs `CpuFlags::UNUSED`). -/
def flagUNUSED : Nat := 0x20

/-- OVERFLOW flag bit (cpu.rs `CpuFlags::OVERFLOW`). -/
def flagOVERFLOW : Nat := 0x40

/-- NEGATIVE flag bit (cpu.rs `CpuFlags::NEGATIVE`). -/
def flagNEGATIVE : Nat := 0x80

/-- Sets or clears a single flag bit in a status byte
(`bitflags` `insert`/`remove`/`set`). -/
def setFlag (status flag : Nat) (value : Bool) : Nat :=
  if value then status ||| flag else status &&& (255 ^^^ flag)

/-- Addressing modes (cpu.rs `AddressingMode`). -/
inductive AddressingMode where
  | immediate
  | zeroPage
  | zeroPageX
  | zeroPageY
  | absolute
  | absoluteX
  | absoluteY
  | indirectX
  | indirectY
  | relative
  | indirect
  | accumulator
  | implied
deriving DecidableEq

/-- CPU state (cpu.rs `CPU`).  The bus the CPU owns is abstracted through the
`Mem` trait interface the source is written against: `mem` is the byte-valued
CPU address space, `nmi_line` models `bus.poll_nmi_status()` (the PPU's pending
NMI, consumed on poll), and `ticked_cycles` accumulates the cycle counts the
CPU hands to `Bus::tick`. -/
structure CPUState where
  register_a : Nat
  register_x : Nat
  register_y : Nat
  status : Nat
  program_counter : Nat
  stack_pointer : Nat
  mem : Nat → Nat
  nmi_line : Option Nat
  irq_pending : Bool
  ticked_cycles : Nat

/-- Reads one byte (cpu.rs `Mem::mem_read` through the bus). -/
def CPUState.mem_read (st : CPUState) (addr : Nat) : Nat :=
  st.mem addr

/-- Writes one byte, producing the updated state (cpu.rs `Mem::mem_write`). -/
def CPUState.mem_write (st : CPUState) (addr data : Nat) : CPUState :=
  { st with mem := fun x => if x = addr then data else st.mem x }

/-- Reads a little-endian 16-bit value (cpu.rs `Mem::mem_read_u16`): low byte at
`pos`, high byte at `pos.wrapping_add(1)`. -/
def CPUState.mem_read_u16 (st : CPUState) (pos : Nat) : Nat :=
  let lo := st.mem_read pos
  let hi := st.mem_read ((pos + 1) % 65536)
  (hi <<< 8) ||| lo

/-- Models `self.bus.tick(cycles)` as seen from the CPU: the handed-over cycle
count is accumulated (the bus-side effects are modeled by `BusModel.tick`). -/
def CPUState.bus_tick (st : CPUState) (cycles : Nat) : CPUState :=
  { st with ticked_cycles := st.ticked_cycles + cycles }

/-- Whether two addresses lie on different 256-byte pages (cpu.rs `page_cross`). -/
def page_cross (addr1 addr2 : Nat) : Bool :=
  addr1 &&& 0xFF00 != addr2 &&& 0xFF00

/-- Reinterprets a byte as `i8` and sign-extends to `u16`
(Rust `offset as i8 as u16`). -/
def i8_as_u16 (b : Nat) : Nat :=
  if b < 128 then b else b + 0xFF00

/-- Pushes one byte onto the stack: write at `0x0100 + S`, then decrement S with
wrap (cpu.rs `CPU::stack_push`). -/
def CPUState.stack_push (st : CPUState) (data : Nat) : CPUState :=
  let st := st.mem_write (0x0100 + st.stack_pointer) data
  { st with stack_pointer := (st.stack_pointer + 255) % 256 }

/-- Pops one byte from the stack: increment S with wrap, then read at
`0x0100 + S` (cpu.rs `CPU::stack_pop`). -/
def CPUState.stack_pop (st : CPUState) : Nat × CPUState :=
  let st := { st with stack_pointer := (st.stack_pointer + 1) % 256 }
  (st.mem_read (0x0100 + st.stack_pointer), st)

/-- Pushes a 16-bit value, high byte first (cpu.rs `CPU::stack_push_u16`). -/
def CPUState.stack_push_u16 (st : CPUState) (data : Nat) : CPUState :=
  let hi := data >>> 8
  let lo := data &&& 0xFF
  (st.stack_push hi).stack_push lo

/-- Pops a 16-bit value, low byte first (cpu.rs `CPU::stack_pop_u16`). -/
def CPUState.stack_pop_u16 (st : CPUState) : Nat × CPUState :=
  let r1 := st.stack_pop
  let r2 := r1.2.stack_pop
  ((r2.1 <<< 8) ||| r1.1, r2.2)

/-- Resolves the operand address for an addressing mode, with the page-crossed
boolean (cpu.rs `CPU::get_operand_address`).  The `Accumulator` and `Implied`
arms panic in the source and are never reached from `step`; they yield `none`. -/
def CPUState.get_operand_address (st : CPUState) :
    AddressingMode → Option (Nat × Bool)
  | AddressingMode.immediate => some (st.program_counter, false)
  | AddressingMode.zeroPage => some (st.mem_read st.program_counter, false)
  | AddressingMode.zeroPageX =>
    some ((st.mem_read st.program_counter + st.register_x) % 256, false)
  | AddressingMode.zeroPageY =>
    some ((st.mem_read st.program_counter + st.register_y) % 256, false)
  | AddressingMode.absolute => some (st.mem_read_u16 st.program_counter, false)
  | AddressingMode.absoluteX =>
    let base := st.mem_read_u16 st.program_counter
    let addr := (base + st.register_x) % 65536
    some (addr, page_cross base addr)
  | AddressingMode.absoluteY =>
    let base := st.mem_read_u16 st.program_counter
    let addr := (base + st.register_y) % 65536
    some (addr, page_cross base addr)
  | AddressingMode.indirectX =>
    let base := st.mem_read st.program_counter
    let ptr := (base + st.register_x) % 256
    let lo := st.mem_read ptr
    let hi := st.mem_read ((ptr + 1) % 256)
    some ((hi <<< 8) ||| lo, false)
  | AddressingMode.indirectY =>
    let base := st.mem_read st.program_counter
    let lo := st.mem_read base
    let hi := st.mem_read ((base + 1) % 256)
    let deref_base := (hi <<< 8) ||| lo
    let deref := (deref_base + st.register_y) % 65536
    some (deref, page_cross deref_base deref)
  | AddressingMode.relative =>
    let offset := st.mem_read st.program_counter
    some ((st.program_counter + 1 + i8_as_u16 offset) % 65536, false)
  | AddressingMode.indirect =>
    let ptr := st.mem_read_u16 st.program_counter
    let addr :=
      if ptr &&& 0x00FF = 0x00FF then
        let lo := st.mem_read ptr
        let hi := st.mem_read (ptr &&& 0xFF00)
        (hi <<< 8) ||| lo
      else
        st.mem_read_u16 ptr
    some (addr, false)
  | AddressingMode.accumulator => none
  | AddressingMode.implied => none

/-- Updates the Zero and Negative flags from a result byte
(cpu.rs `CPU::update_zero_and_negative_flags`). -/
def CPUState.update_zero_and_negative_flags (st : CPUState) (result : Nat) : CPUState :=
  let st := { st with status := setFlag st.status flagZERO (result == 0) }
  { st with status := setFlag st.status flagNEGATIVE (result &&& 0x80 != 0) }

/-- Addition with carry into the accumulator, with the canonical carry and
signed-overflow flag rules (cpu.rs `CPU::add_to_register_a`). -/
def CPUState.add_to_register_a (st : CPUState) (data : Nat) : CPUState :=
  let carry_in := if st.status &&& flagCARRY ≠ 0 then 1 else 0
  let sum := st.register_a + data + carry_in
  let st := { st with status := setFlag st.status flagCARRY (sum > 0xFF) }
  let result := sum % 256
  let overflow := ((st.register_a ^^^ result) &&& (data ^^^ result)) &&& 0x80 != 0
  let st := { st with status := setFlag st.status flagOVERFLOW overflow }
  let st := { st with register_a := result }
  st.update_zero_and_negative_flags result

/-- Subtraction with borrow: SBC is ADC of the bitwise complement `!data`
(cpu.rs `CPU::sub_from_register_a`). -/
def CPUState.sub_from_register_a (st : CPUState) (data : Nat) : CPUState :=
  st.add_to_register_a (data ^^^ 0xFF)

/-- LDA (cpu.rs `CPU::lda`). -/
def CPUState.lda (st : CPUState) (mode : AddressingMode) : Option (CPUState × Bool) :=
  (st.get_operand_address mode).map fun r =>
    let value := st.mem_read r.1
    (({ st with register_a := value }).update_zero_and_negative_flags value, r.2)

/-- ADC (cpu.rs `CPU::adc`). -/
def CPUState.adc (st : CPUState) (mode : AddressingMode) : Option (CPUState × Bool) :=
  (st.get_operand_address mode).map fun r =>
    (st.add_to_register_a (st.mem_read r.1), r.2)

/-- SBC (cpu.rs `CPU::sbc`). -/
def CPUState.sbc (st : CPUState) (mode : AddressingMode) : Option (CPUState × Bool) :=
  (st.get_operand_address mode).map fun r =>
    (st.sub_from_register_a (st.mem_read r.1), r.2)

/-- Conditional branch with branch-taken and page-cross cycle accounting
(cpu.rs `CPU::branch`). -/
def CPUState.branch (st : CPUState) (condition : Bool) : CPUState :=
  if condition then
    let old_pc := st.program_counter
    let offset := st.mem_read st.program_counter
    let new_pc := (st.program_counter + 1 + i8_as_u16 offset) % 65536
    let st := { st with program_counter := new_pc }
    let st := st.bus_tick 1
    if page_cross ((old_pc + 1) % 65536) new_pc then st.bus_tick 1 else st
  else st

/-- PHA (cpu.rs `CPU::pha`). -/
def CPUState.pha (st : CPUState) : CPUState :=
  st.stack_push st.register_a

/-- PLA (cpu.rs `CPU::pla`). -/
def CPUState.pla (st : CPUState) : CPUState :=
  let r := st.stack_pop
  ({ r.2 with register_a := r.1 }).update_zero_and_negative_flags r.1

/-- PHP: pushes P with BREAK and UNUSED set (cpu.rs `CPU::php`). -/
def CPUState.php (st : CPUState) : CPUState :=
  st.stack_push ((st.status ||| flagBREAK) ||| flagUNUSED)

/-- PLP: sets P from the stack, then forces BREAK cleared and UNUSED set
(cpu.rs `CPU::plp`; `from_bits_truncate` is the identity on a byte since all
eight flag bits are named). -/
def CPUState.plp (st : CPUState) : CPUState :=
  let r := st.stack_pop
  let st := { r.2 with status := r.1 }
  let st := { st with status := st.status &&& (255 ^^^ flagBREAK) }
  { st with status := st.status ||| flagUNUSED }

/-- JMP (cpu.rs `CPU::jmp`). -/
def CPUState.jmp (st : CPUState) (mode : AddressingMode) : Option CPUState :=
  (st.get_operand_address mode).map fun r =>
    { st with program_counter := r.1 }

/-- JSR (cpu.rs `CPU::jsr`). -/
def CPUState.jsr (st : CPUState) : CPUState :=
  let st := st.stack_push_u16 ((st.program_counter + 1) % 65536)
  { st with program_counter := st.mem_read_u16 st.program_counter }

/-- RTS (cpu.rs `CPU::rts`). -/
def CPUState.rts (st : CPUState) : CPUState :=
  let r := st.stack_pop_u16
  { r.2 with program_counter := (r.1 + 1) % 65536 }

/-- RTI (cpu.rs `CPU::rti`). -/
def CPUState.rti (st : CPUState) : CPUState :=
  let r := st.stack_pop
  let st := { r.2 with status := r.1 }
  let st := { st with status := st.status &&& (255 ^^^ flagBREAK) }
  let st := { st with status := st.status ||| flagUNUSED }
  let r2 := st.stack_pop_u16
  { r2.2 with program_counter := r2.1 }

/-- Interrupt servicing helper (cpu.rs `CPU::interrupt`) for NMI/IRQ: push PC,
push P with the BREAK bit from the interrupt's mask and UNUSED set, set
INTERRUPT_DISABLE, load PC from the vector, tick 7 cycles. -/
def CPUState.interrupt_service (st : CPUState) (vector_addr b_flag_mask : Nat) : CPUState :=
  let st := st.stack_push_u16 st.program_counter
  let pushed := setFlag (setFlag st.status flagBREAK (b_flag_mask &&& 0x10 != 0)) flagUNUSED true
  let st := st.stack_push pushed
  let st := { st with status := st.status ||| flagINTERRUPT_DISABLE }
  let st := { st with program_counter := st.mem_read_u16 vector_addr }
  st.bus_tick 7

/-- Static opcode metadata: instruction length, base cycles, addressing mode
(opcodes.rs `OpCode`). -/
structure OpEntry where
  len : Nat
  cycles : Nat
  mode : AddressingMode
deriving DecidableEq

/-- Restriction of opcodes.rs `OPCODES_MAP` to the instruction subset embedded
here; unlisted byte codes behave like unknown opcodes (`none`). -/
def opLookup : Nat → Option OpEntry
  | 0xA9 => some ⟨2, 2, AddressingMode.immediate⟩
  | 0xA5 => some ⟨2, 3, AddressingMode.zeroPage⟩
  | 0x69 => some ⟨2, 2, AddressingMode.immediate⟩
  | 0xE9 => some ⟨2, 2, AddressingMode.immediate⟩
  | 0x4C => some ⟨3, 3, AddressingMode.absolute⟩
  | 0x6C => some ⟨3, 5, AddressingMode.indirect⟩
  | 0x20 => some ⟨3, 6, AddressingMode.absolute⟩
  | 0x60 => some ⟨1, 6, AddressingMode.implied⟩
  | 0x40 => some ⟨1, 6, AddressingMode.implied⟩
  | 0x08 => some ⟨1, 3, AddressingMode.implied⟩
  | 0x28 => some ⟨1, 4, AddressingMode.implied⟩
  | 0x48 => some ⟨1, 3, AddressingMode.implied⟩
  | 0x68 => some ⟨1, 4, AddressingMode.implied⟩
  | 0xD0 => some ⟨2, 2, AddressingMode.relative⟩
  | 0xF0 => some ⟨2, 2, AddressingMode.relative⟩
  | 0x18 => some ⟨1, 2, AddressingMode.implied⟩
  | 0x38 => some ⟨1, 2, AddressingMode.implied⟩
  | 0xEA => some ⟨1, 2, AddressingMode.implied⟩
  | 0x02 => some ⟨1, 2, AddressingMode.implied⟩
  | _ => none

/-- Executes the instruction body for a fetched opcode (the `match code` block
of cpu.rs `CPU::step`), returning the state and the page-crossed flag, or
`none` where the source panics (KIL at 0x02). -/
def CPUState.execute (st : CPUState) (code : Nat) (mode : AddressingMode) :
    Option (CPUState × Bool) :=
  match code with
  | 0xA9 | 0xA5 => st.lda mode
  | 0x69 => st.adc mode
  | 0xE9 => st.sbc mode
  | 0x4C | 0x6C => (st.jmp mode).map fun s => (s, false)
  | 0x20 => some (st.jsr, false)
  | 0x60 => some (st.rts, false)
  | 0x40 => some (st.rti, false)
  | 0x08 => some (st.php, false)
  | 0x28 => some (st.plp, false)
  | 0x48 => some (st.pha, false)
  | 0x68 => some (st.pla, false)
  | 0xD0 => some (st.branch (st.status &&& flagZERO == 0), false)
  | 0xF0 => some (st.branch (st.status &&& flagZERO != 0), false)
  | 0x18 => some ({ st with status := st.status &&& (255 ^^^ flagCARRY) }, false)
  | 0x38 => some ({ st with status := st.status ||| flagCARRY }, false)
  | 0xEA => some (st, false)
  | _ => none

/-- One CPU step (cpu.rs `CPU::step`): service pending NMI/IRQ, fetch the
opcode and advance PC, execute, tick the bus by the cycle count, and advance PC
by `len - 1` exactly when its value still equals the post-fetch value. -/
def CPUState.step (st : CPUState) : Option CPUState :=
  let st :=
    match st.nmi_line with
    | some _ => CPUState.interrupt_service { st with nmi_line := none } 0xFFFA 0x20
    | none => st
  let st :=
    if st.irq_pending ∧ st.status &&& flagINTERRUPT_DISABLE = 0 then
      CPUState.interrupt_service { st with irq_pending := false } 0xFFFE 0x20
    else st
  let code := st.mem_read st.program_counter
  let st := { st with program_counter := (st.program_counter + 1) % 65536 }
  let program_counter_state := st.program_counter
  match opLookup code with
  | none => none
  | some op =>
    (st.execute code op.mode).map fun r =>
      let cycles := op.cycles + (if r.2 then 1 else 0)
      let st := r.1.bus_tick cycles
      if program_counter_state = st.program_counter then
        { st with program_counter := (st.program_counter + (op.len - 1)) % 65536 }
      else st

/-- Generic sample CPU state used to instantiate theorems with hypotheses:
post-reset register values and an all-zero memory. -/
def sampleCpu : CPUState :=
  { register_a := 0x05
    register_x := 0
    register_y := 0
    status := 0x25
    program_counter := 0x0600
    stack_pointer := 0xFD
    mem := fun _ => 0
    nmi_line := none
    irq_pending := false
    ticked_cycles := 0 }

/-- Memory image holding `JMP $0601` at 0x0600 — an absolute JMP whose target
is its own operand address, i.e. the PC value right after the opcode fetch. -/
def jmpSelfMem : Nat → Nat := fun a =>
  if a = 0x0600 then 0x4C
  else if a = 0x0601 then 0x01
  else if a = 0x0602 then 0x06
  else 0

/-- CPU state about to execute `JMP $0601` at 0x0600. -/
def jmpSelfMachine : CPUState :=
  { sampleCpu with mem := jmpSelfMem }

/-- Memory image holding `JMP $0700` at 0x0600 — an ordinary absolute JMP. -/
def jmpAwayMem : Nat → Nat := fun a =>
  if a = 0x0600 then 0x4C
  else if a = 0x0601 then 0x00
  else if a = 0x0602 then 0x07
  else 0

/-- CPU state about to execute `JMP $0700` at 0x0600. -/
def jmpAwayMachine : CPUState :=
  { sampleCpu with mem := jmpAwayMem }

/-- Memory image for `JMP ($10FF)`: the pointer 0x10FF has low byte 0xFF, the
wrapped high byte lives at 0x1000. -/
def indirMem : Nat → Nat := fun a =>
  if a = 0x0600 then 0xFF
  else if a = 0x0601 then 0x10
  else if a = 0x10FF then 0x34
  else if a = 0x1000 then 0x12
  else if a = 0x1100 then 0x77
  else 0

/-- CPU state whose PC points at the operand bytes of a `JMP ($10FF)`. -/
def indirMachine : CPUState :=
  { sampleCpu with mem := indirMem }

/-- Sample APU state with a one-byte looping DMC sample in flight, used to
instantiate the `dmc_provide_data` theorem. -/
def apuDmcLoop : Apu :=
  { Apu.default with
    dmc := { Apu.default.dmc with
      loop_flag := true
      current_length := 1
      current_address := 0xFFFF
      sample_address := 0xC000
      sample_length := 17 } }

/-- Sample bus state: zeroed RAM, empty PRG-ROM, default APU. -/
def bus0 : BusModel :=
  { cpu_vram := fun _ => 0
    prg_rom := []
    apu := Apu.default
    ppu_cycles := 0
    cycles := 0 }

/-- Bitwise complement of a byte agrees with subtraction from 255. -/
theorem xor255_eq_sub : ∀ m < 256, m ^^^ 255 = 255 - m := by decide

/-- C1: for every accumulator value, operand byte M and incoming carry (all
carried inside `st`), executing SBC with operand M leaves the CPU — accumulator
and the Carry, Zero, Overflow and Negative flags — in exactly the state that
executing ADC with the bitwise complement of M (255 − M) at the same incoming
carry leaves it. -/
theorem c1_sbc_is_adc_of_complement (st : CPUState) (m : Nat) (hm : m < 256) :
    st.sub_from_register_a m = st.add_to_register_a (255 - m) := by
  have h : m ^^^ 255 = 255 - m := xor255_eq_sub m hm
  simp only [CPUState.sub_from_register_a]
  rw [h]

/-- Witness for C1 at the concrete operand 3 and the sample CPU state. -/
theorem c1_witness :
    (3 : Nat) < 256 ∧ sampleCpu.sub_from_register_a 3 = sampleCpu.add_to_register_a 252 :=
  ⟨by decide, c1_sbc_is_adc_of_complement sampleCpu 3 (by decide)⟩

/-- Byte-level computation behind the PHP/PLP round trip: pushing P with BREAK
and UNUSED set, then pulling with BREAK forced clear and UNUSED forced set,
yields the original P with BREAK cleared and UNUSED set. -/
theorem php_plp_status_calc :
    ∀ s < 256, (((s ||| 0x10) ||| 0x20) &&& (255 ^^^ 0x10)) ||| 0x20 = (s &&& 0xEF) ||| 0x20 := by
  decide

/-- C6: for every CPU state, executing PHP followed by PLP restores the status
register to its original value except that BREAK is cleared and UNUSED (bit 5)
is set, and restores the stack pointer to its original value. -/
theorem c6_php_plp_roundtrip (st : CPUState)
    (hs : st.status < 256) (hsp : st.stack_pointer < 256) :
    (st.php.plp).status = (st.status &&& 0xEF) ||| 0x20 ∧
    (st.php.plp).stack_pointer = st.stack_pointer := by
  have hsp2 : ((st.stack_pointer + 255) % 256 + 1) % 256 = st.stack_pointer := by omega
  simp only [CPUState.php, CPUState.plp, CPUState.stack_push, CPUState.stack_pop,
    CPUState.mem_write, CPUState.mem_read, flagBREAK, flagUNUSED]
  rw [hsp2]
  simp only [if_pos rfl]
  exact ⟨php_plp_status_calc st.status hs, trivial⟩

/-- Witness for C6 at the sample CPU state. -/
theorem c6_witness :
    sampleCpu.status < 256 ∧ sampleCpu.stack_pointer < 256 ∧
    ((sampleCpu.php.plp).status = (sampleCpu.status &&& 0xEF) ||| 0x20 ∧
     (sampleCpu.php.plp).stack_pointer = sampleCpu.stack_pointer) :=
  ⟨by decide, by decide, c6_php_plp_roundtrip sampleCpu (by decide) (by decide)⟩

/-- Shifting a high byte left by 8 and or-ing a low byte below 256 is exactly
the little-endian composition 256·hi + lo. -/
theorem shl8_or_eq (h l : Nat) (hl : l < 256) : (h <<< 8) ||| l = 256 * h + l := by
  have hb : l < 2 ^ 8 := by omega
  calc (h <<< 8) ||| l = 2 ^ 8 * h ||| l := by rw [Nat.shiftLeft_eq, Nat.mul_comm]
    _ = 2 ^ 8 * h + l := (Nat.mul_add_lt_is_or hb h).symm
    _ = 256 * h + l := by norm_num

/-- C5: for an indirect JMP pointer whose low byte is 0xFF, the effective
target is composed from the low byte read at the pointer itself and the high
byte read at `pointer &&& 0xFF00` (the start of the same page, not
`pointer + 1`); for any other pointer the target is the little-endian 16-bit
value at `pointer` and `pointer + 1`. -/
theorem c5_indirect_jmp_page_wrap (st : CPUState) (hm : ∀ x, st.mem x < 256) :
    (st.mem_read_u16 st.program_counter &&& 0x00FF = 0x00FF →
      st.get_operand_address AddressingMode.indirect =
        some (256 * st.mem (st.mem_read_u16 st.program_counter &&& 0xFF00) +
              st.mem (st.mem_read_u16 st.program_counter), false)) ∧
    (st.mem_read_u16 st.program_counter &&& 0x00FF ≠ 0x00FF →
      st.get_operand_address AddressingMode.indirect =
        some (256 * st.mem ((st.mem_read_u16 st.program_counter + 1) % 65536) +
              st.mem (st.mem_read_u16 st.program_counter), false)) := by
  constructor
  · intro h
    simp only [CPUState.get_operand_address, CPUState.mem_read]
    rw [if_pos h, shl8_or_eq _ _ (hm _)]
  · intro h
    simp only [CPUState.get_operand_address, CPUState.mem_read]
    rw [if_neg h]
    simp only [CPUState.mem_read_u16, CPUState.mem_read]
    rw [shl8_or_eq _ _ (hm _)]

/-- The `JMP ($10FF)` memory image is byte-valued. -/
theorem indirMem_bytes : ∀ x, indirMem x < 256 := by
  intro x
  unfold indirMem
  repeat' split
  all_goals decide

/-- Witness for C5: `JMP ($10FF)` with 0x34 at 0x10FF and 0x12 at 0x1000
resolves to 0x1234 (the byte 0x77 at 0x1100 is ignored). -/
theorem c5_witness :
    indirMachine.mem_read_u16 indirMachine.program_counter &&& 0x00FF = 0x00FF ∧
    indirMachine.get_operand_address AddressingMode.indirect = some (0x1234, false) :=
  ⟨by decide, (c5_indirect_jmp_page_wrap indirMachine indirMem_bytes).1 (by decide)⟩

/-- C8: a CPU read of 0x4015 returns a byte whose bits 0/1/2/3 report nonzero
pulse1/pulse2/triangle/noise length counters, bit 4 reports DMC
`current_length > 0`, and bit 7 reports a pending DMC IRQ; the read clears the
frame-counter interrupt flag and leaves every other part of the APU state —
the DMC IRQ pending flag included — unchanged. -/
theorem c8_apu_status_read (a : Apu) :
    ((a.cpu_read 0x4015).1.testBit 0 = true ↔ 0 < a.pulse1.length_counter) ∧
    ((a.cpu_read 0x4015).1.testBit 1 = true ↔ 0 < a.pulse2.length_counter) ∧
    ((a.cpu_read 0x4015).1.testBit 2 = true ↔ 0 < a.triangle.length_counter) ∧
    ((a.cpu_read 0x4015).1.testBit 3 = true ↔ 0 < a.noise.length_counter) ∧
    ((a.cpu_read 0x4015).1.testBit 4 = true ↔ 0 < a.dmc.current_length) ∧
    ((a.cpu_read 0x4015).1.testBit 7 = true ↔ a.dmc.irq_pending = true) ∧
    (a.cpu_read 0x4015).2 =
      { a with frame_counter := { a.frame_counter with interrupt_flag := false } } := by
  by_cases h1 : 0 < a.pulse1.length_counter <;>
  by_cases h2 : 0 < a.pulse2.length_counter <;>
  by_cases h3 : 0 < a.triangle.length_counter <;>
  by_cases h4 : 0 < a.noise.length_counter <;>
  by_cases h5 : 0 < a.dmc.current_length <;>
  by_cases h6 : a.dmc.irq_pending = true <;>
    simp [Apu.cpu_read, h1, h2, h3, h4, h5, h6] <;> decide

/-- C9: when the bus provides a DMC sample byte, the byte lands in the sample
buffer, `current_address` is incremented with a wrap from 0xFFFF to 0x8000 and
`current_length` is decremented; if the length thereby reaches 0 with the loop
flag set, `current_address` is reset to `sample_address` and `current_length`
reloaded to `sample_length`; if it reaches 0 with loop clear and IRQ enabled,
the DMC IRQ pending flag is set instead. -/
theorem c9_dmc_provide_data (a : Apu) (d : Nat)
    (h1 : 0 < a.dmc.current_length) (h2 : a.dmc.current_length < 65536)
    (h3 : a.dmc.current_address < 65536) :
    ((a.dmc_provide_data d).dmc.sample_buffer = some d) ∧
    ((a.dmc_provide_data d).dmc.current_length =
      if a.dmc.current_length = 1 ∧ a.dmc.loop_flag = true then a.dmc.sample_length
      else a.dmc.current_length - 1) ∧
    ((a.dmc_provide_data d).dmc.current_address =
      if a.dmc.current_length = 1 ∧ a.dmc.loop_flag = true then a.dmc.sample_address
      else if a.dmc.current_address = 0xFFFF then 0x8000
      else a.dmc.current_address + 1) ∧
    ((a.dmc_provide_data d).dmc.irq_pending =
      if a.dmc.current_length = 1 ∧ a.dmc.loop_flag = false ∧ a.dmc.irq_enabled = true
      then true else a.dmc.irq_pending) := by
  have hlen : (a.dmc.current_length + 65535) % 65536 = a.dmc.current_length - 1 := by omega
  have hmod : (a.dmc.current_address + 1) % 65536 =
      if a.dmc.current_address = 65535 then 0 else a.dmc.current_address + 1 := by
    split <;> omega
  have hone : (a.dmc.current_length - 1 = 0) ↔ (a.dmc.current_length = 1) := by omega
  simp only [Apu.dmc_provide_data, hlen, hmod, hone]
  by_cases hL : a.dmc.current_length = 1 <;>
  by_cases hA : a.dmc.current_address = 65535 <;>
  by_cases hF : a.dmc.loop_flag = true <;>
  by_cases hI : a.dmc.irq_enabled = true <;>
    simp_all

/-- Witness for C9: a looping one-byte sample at address 0xFFFF wraps
`current_address` back to `sample_address` and reloads `current_length` to
`sample_length`. -/
theorem c9_witness :
    0 < apuDmcLoop.dmc.current_length ∧
    ((apuDmcLoop.dmc_provide_data 7).dmc.sample_buffer = some 7 ∧
     (apuDmcLoop.dmc_provide_data 7).dmc.current_length = 17 ∧
     (apuDmcLoop.dmc_provide_data 7).dmc.current_address = 0xC000 ∧
     (apuDmcLoop.dmc_provide_data 7).dmc.irq_pending = false) := by
  refine ⟨by decide, ?_⟩
  have h := c9_dmc_provide_data apuDmcLoop 7 (by decide) (by decide) (by decide)
  simpa using h

/-- C4 counterexample: `JMP $0601` at 0x0600 targets its own operand address
(the PC value right after the opcode fetch).  The claim says no `len − 1`
advance is applied to a jump that set PC, so the final PC would be 0x0601; the
code's value-based check fires and advances PC to 0x0603. -/
theorem c4_counterexample :
    (CPUState.step jmpSelfMachine).map (fun s => s.program_counter) = some 0x0603 ∧
    (0x0603 : Nat) ≠ 0x0601 :=
  ⟨by decide, by decide⟩

/-- C4 (amended): after an instruction executes, PC is advanced by `len − 1`
exactly when its value equals the PC value right after the opcode fetch,
regardless of the instruction kind: an absolute JMP whose target differs from
that value ends at its target with no extra advance; an absolute JMP targeting
its own operand address does receive the extra advance and ends at
`target + 2`; and a non-PC-changing instruction (LDA immediate) is advanced by
`len − 1 = 1` past its operand, ending at `PC + 2`. -/
theorem c4_pc_advance_on_value_match :
    (∀ st : CPUState, st.nmi_line = none → st.irq_pending = false →
      st.mem st.program_counter = 0x4C →
      st.mem_read_u16 ((st.program_counter + 1) % 65536) ≠ (st.program_counter + 1) % 65536 →
      (CPUState.step st).map (fun s => s.program_counter) =
        some (st.mem_read_u16 ((st.program_counter + 1) % 65536))) ∧
    (∀ st : CPUState, st.nmi_line = none → st.irq_pending = false →
      st.mem st.program_counter = 0x4C →
      st.mem_read_u16 ((st.program_counter + 1) % 65536) = (st.program_counter + 1) % 65536 →
      (CPUState.step st).map (fun s => s.program_counter) =
        some ((st.mem_read_u16 ((st.program_counter + 1) % 65536) + 2) % 65536)) ∧
    (∀ st : CPUState, st.nmi_line = none → st.irq_pending = false →
      st.mem st.program_counter = 0xA9 →
      (CPUState.step st).map (fun s => s.program_counter) =
        some ((st.program_counter + 2) % 65536)) := by
  refine ⟨?_, ?_, ?_⟩
  · intro st hnmi hirq hcode htarget
    simp [CPUState.mem_read_u16, CPUState.mem_read] at htarget
    simp [CPUState.step, hnmi, hirq, hcode, CPUState.mem_read, opLookup, CPUState.execute,
      CPUState.jmp, CPUState.get_operand_address, CPUState.bus_tick, CPUState.mem_read_u16]
    rw [if_neg (Ne.symm htarget)]
  · intro st hnmi hirq hcode htarget
    simp [CPUState.mem_read_u16, CPUState.mem_read] at htarget
    simp [CPUState.step, hnmi, hirq, hcode, CPUState.mem_read, opLookup, CPUState.execute,
      CPUState.jmp, CPUState.get_operand_address, CPUState.bus_tick, CPUState.mem_read_u16,
      htarget]
  · intro st hnmi hirq hcode
    simp [CPUState.step, hnmi, hirq, hcode, CPUState.mem_read, opLookup, CPUState.execute,
      CPUState.lda, CPUState.get_operand_address, CPUState.bus_tick,
      CPUState.update_zero_and_negative_flags, setFlag]

/-- Witness for the amended C4: the ordinary `JMP $0700` at 0x0600 ends at
exactly 0x0700. -/
theorem c4_witness :
    jmpAwayMachine.mem_read_u16 ((jmpAwayMachine.program_counter + 1) % 65536) ≠
      (jmpAwayMachine.program_counter + 1) % 65536 ∧
    (CPUState.step jmpAwayMachine).map (fun s => s.program_counter) = some 0x0700 :=
  ⟨by decide, by
    have h := c4_pc_advance_on_value_match.1 jmpAwayMachine rfl rfl (by decide) (by decide)
    simpa using h⟩


/-- Checking for a DMC read request only touches `dmc_read_request`. -/
theorem Apu.check_dmc_read_request_cycles (a : Apu) :
    (a.check_dmc_read_request).cycles = a.cycles := by
  unfold Apu.check_dmc_read_request
  split <;> rfl

/-- The frame-counter step never touches the APU cycle counter. -/
theorem Apu.frame_counter_step_cycles (a : Apu) :
    (a.frame_counter_step).cycles = a.cycles := by
  unfold Apu.frame_counter_step
  dsimp only
  split <;> (repeat' split) <;> rfl

/-- Each invocation of `Apu::clock` advances the APU cycle counter by exactly
one, on both the odd- and even-cycle paths. -/
theorem Apu.clock_cycles (a : Apu) : (a.clock).cycles = a.cycles + 1 := by
  unfold Apu.clock
  dsimp only
  split
  · rw [Apu.check_dmc_read_request_cycles]
  · rw [Apu.frame_counter_step_cycles]
    show (Apu.check_dmc_read_request _).cycles = _
    rw [Apu.check_dmc_read_request_cycles]

/-- Providing DMC data does not touch the APU cycle counter. -/
theorem Apu.dmc_provide_data_cycles (a : Apu) (d : Nat) :
    (a.dmc_provide_data d).cycles = a.cycles := by
  unfold Apu.dmc_provide_data
  dsimp only

/-- One iteration of the bus tick loop clocks the APU exactly once. -/
theorem BusModel.apu_cycle_step_apu_cycles (b : BusModel) :
    (b.apu_cycle_step).apu.cycles = b.apu.cycles + 1 := by
  unfold BusModel.apu_cycle_step
  dsimp only
  split <;> simp [Apu.dmc_provide_data_cycles, Apu.clock_cycles]

/-- One iteration of the bus tick loop does not touch the PPU cycle counter. -/
theorem BusModel.apu_cycle_step_ppu_cycles (b : BusModel) :
    (b.apu_cycle_step).ppu_cycles = b.ppu_cycles := by
  unfold BusModel.apu_cycle_step
  dsimp only
  split <;> rfl

/-- One iteration of the bus tick loop does not touch the bus cycle counter. -/
theorem BusModel.apu_cycle_step_cycles (b : BusModel) :
    (b.apu_cycle_step).cycles = b.cycles := by
  unfold BusModel.apu_cycle_step
  dsimp only
  split <;> rfl

/-- Iterating the bus tick loop `n` times clocks the APU exactly `n` times and
leaves the PPU and bus cycle counters alone. -/
theorem applyN_apu_cycle_step (n : Nat) (b : BusModel) :
    (applyN BusModel.apu_cycle_step n b).apu.cycles = b.apu.cycles + n ∧
    (applyN BusModel.apu_cycle_step n b).ppu_cycles = b.ppu_cycles ∧
    (applyN BusModel.apu_cycle_step n b).cycles = b.cycles := by
  induction n generalizing b with
  | zero => simp [applyN]
  | succ n ih =>
    have h := ih b.apu_cycle_step
    refine ⟨?_, ?_, ?_⟩ <;>
      (simp only [applyN, h.1, h.2.1, h.2.2,
        BusModel.apu_cycle_step_apu_cycles, BusModel.apu_cycle_step_ppu_cycles,
        BusModel.apu_cycle_step_cycles]; try omega)

/-- C2 counterexample: a single call `Bus::tick(86)` advances the PPU by
`(86 * 3) % 256 = 2` cycles, not `3 × 86 = 258`, because the `cycles * 3`
handed to `NesPPU::tick` is computed in `u8` arithmetic. -/
theorem c2_counterexample :
    (bus0.tick 86).ppu_cycles ≠ bus0.ppu_cycles + 3 * 86 := by
  unfold BusModel.tick
  dsimp only
  have h := (applyN_apu_cycle_step 86 { bus0 with cycles := bus0.cycles + 86 }).2.1
  rw [h]
  decide

/-- C2 (amended): for every call `Bus::tick(n)` with `n ≤ 85` — which covers
every call the CPU interpreter issues, since per-instruction cycle counts never
exceed 9 and interrupt servicing ticks 7 — the bus advances its CPU cycle
counter by `n`, the APU is clocked exactly `n` times (its cycle counter grows
by `n`), and the PPU is advanced by exactly `3 n` cycles. -/
theorem c2_tick_cycle_conservation (b : BusModel) (n : Nat) (hn : n ≤ 85) :
    (b.tick n).cycles = b.cycles + n ∧
    (b.tick n).apu.cycles = b.apu.cycles + n ∧
    (b.tick n).ppu_cycles = b.ppu_cycles + 3 * n := by
  have h := applyN_apu_cycle_step n { b with cycles := b.cycles + n }
  unfold BusModel.tick
  dsimp only
  have hmod : (n * 3) % 256 = 3 * n := by omega
  exact ⟨by rw [h.2.2], by rw [h.1], by rw [h.2.1, hmod]⟩

/-- Witness for the amended C2 at the sample bus state and `n = 1`. -/
theorem c2_witness :
    (1 : Nat) ≤ 85 ∧
    ((bus0.tick 1).cycles = bus0.cycles + 1 ∧
     (bus0.tick 1).apu.cycles = bus0.apu.cycles + 1 ∧
     (bus0.tick 1).ppu_cycles = bus0.ppu_cycles + 3 * 1) :=
  ⟨by decide, c2_tick_cycle_conservation bus0 1 (by decide)⟩

/-- The instrumented clock performs exactly the `Apu::clock` state transition. -/
theorem Apu.clock_counted_fst (a : Apu) (t : TimerCounts) :
    (a.clock_counted t).1 = a.clock := by
  unfold Apu.clock_counted Apu.clock
  dsimp only
  split <;> rfl

/-- Ghost counters per clock: the triangle timer count always advances; on odd
APU cycles only the DMC timer count additionally advances, on even cycles the
pulse, noise and DMC timer counts all advance. -/
theorem Apu.clock_counted_snd (a : Apu) (t : TimerCounts) :
    (a.clock_counted t).2 =
      if (a.cycles + 1) % 2 ≠ 0 then
        { t with triangle_timer := t.triangle_timer + 1, dmc_timer := t.dmc_timer + 1 }
      else
        ⟨t.triangle_timer + 1, t.pulse1_timer + 1, t.pulse2_timer + 1,
         t.noise_timer + 1, t.dmc_timer + 1⟩ := by
  unfold Apu.clock_counted
  dsimp only
  split <;> rfl

/-- After `n` clocks of the default APU: the cycle counter reads `n`, the
triangle and DMC timers have been clocked `n` times, and the pulse and noise
timers `n / 2` times. -/
theorem clockedN_spec (n : Nat) :
    (clockedN n).1.cycles = n ∧
    (clockedN n).2 = ⟨n, n / 2, n / 2, n / 2, n⟩ := by
  induction n with
  | zero => exact ⟨rfl, rfl⟩
  | succ n ih =>
    have h1 : (clockedN (n + 1)).1 = (clockedN n).1.clock :=
      Apu.clock_counted_fst _ _
    have h2 : (clockedN (n + 1)).2 = _ := Apu.clock_counted_snd (clockedN n).1 (clockedN n).2
    constructor
    · rw [h1, Apu.clock_cycles, ih.1]
    · rw [h2, ih.1, ih.2]
      split <;> (simp only [TimerCounts.mk.injEq, true_and, and_true]; omega)

/-- C3 counterexample: after 2 CPU cycles the DMC timer has been clocked twice,
not the once that "every other CPU cycle" demands. -/
theorem c3_counterexample : (clockedN 2).2.dmc_timer ≠ 2 / 2 := by decide

/-- C3 (amended): over any sequence of `n` APU clock invocations, the pulse and
noise channel timers are each clocked exactly once every other CPU cycle
(`n / 2` times), the triangle timer every CPU cycle (`n` times), and the DMC
timer is also clocked every CPU cycle (`n` times) — the code compensates by
loading the DMC timer period as the NTSC rate-table value divided by 2 on a
write to 0x4010. -/
theorem c3_timer_clock_rates :
    (∀ n : Nat,
      (clockedN n).2.triangle_timer = n ∧
      (clockedN n).2.pulse1_timer = n / 2 ∧
      (clockedN n).2.pulse2_timer = n / 2 ∧
      (clockedN n).2.noise_timer = n / 2 ∧
      (clockedN n).2.dmc_timer = n) ∧
    (∀ (d : DmcChannel) (data : Nat),
      (Apu.write_dmc_register d 0x4010 data).timer_period =
        DMC_RATE_TABLE_NTSC.getD (data &&& 0x0F) 0 / 2) := by
  constructor
  · intro n
    rw [(clockedN_spec n).2]
    exact ⟨rfl, rfl, rfl, rfl, rfl⟩
  · intro d data
    rfl

/-- The DMC output unit keeps the output level within [0, 127]: it only adds 2 when the level is at most 125 and only subtracts 2 when it is at least 2. -/
theorem DmcChannel.clock_output_unit_output_level (d : DmcChannel)
    (h : d.output_level ≤ 127) :
    (d.clock_output_unit).output_level ≤ 127 := by
  unfold DmcChannel.clock_output_unit
  rcases hb : d.sample_buffer with _ | byte <;>
    simp only [hb] <;> (repeat' split) <;> (try simp_all) <;> (try omega)

/-- The DMC timer preserves the output-level bound. -/
theorem DmcChannel.clock_timer_output_level (d : DmcChannel)
    (h : d.output_level ≤ 127) :
    (d.clock_timer).output_level ≤ 127 := by
  unfold DmcChannel.clock_timer
  repeat' split
  all_goals first
    | exact h
    | exact DmcChannel.clock_output_unit_output_level _ h

/-- Checking for a DMC read request leaves the DMC channel untouched. -/
theorem Apu.check_dmc_read_request_dmc (a : Apu) :
    (a.check_dmc_read_request).dmc = a.dmc := by
  unfold Apu.check_dmc_read_request
  split <;> rfl

/-- The frame-counter step leaves the DMC channel untouched. -/
theorem Apu.frame_counter_step_dmc (a : Apu) :
    (a.frame_counter_step).dmc = a.dmc := by
  unfold Apu.frame_counter_step
  dsimp only
  split <;> (repeat' split) <;> rfl

/-- One `Apu::clock` acts on the DMC channel exactly as one `clock_timer` (the DMC timer is clocked on both parity branches). -/
theorem Apu.clock_dmc (a : Apu) : (a.clock).dmc = a.dmc.clock_timer := by
  unfold Apu.clock
  dsimp only
  split
  · rw [Apu.check_dmc_read_request_dmc]
  · rw [Apu.frame_counter_step_dmc]
    show (Apu.check_dmc_read_request _).dmc = _
    rw [Apu.check_dmc_read_request_dmc]

/-- A write to 0x4015 never touches the DMC output level. -/
theorem Apu.write_status_register_output_level (a : Apu) (data : Nat) :
    (a.write_status_register data).dmc.output_level = a.dmc.output_level := by
  unfold Apu.write_status_register
  dsimp only
  simp only [apply_ite (fun x : Apu => x.dmc.output_level)]
  simp only [ite_self]

/-- A write to 0x4017 leaves the DMC channel untouched. -/
theorem Apu.write_frame_counter_register_dmc (a : Apu) (data : Nat) :
    (a.write_frame_counter_register data).dmc = a.dmc := by
  unfold Apu.write_frame_counter_register
  dsimp only
  repeat' split
  all_goals rfl

/-- DMC register writes keep the output level at most 127: a write to 0x4011 stores `data &&& 0x7F ≤ 127`, the others leave the level alone. -/
theorem Apu.write_dmc_register_output_level (d : DmcChannel) (addr data : Nat)
    (h : d.output_level ≤ 127) :
    (Apu.write_dmc_register d addr data).output_level ≤ 127 := by
  unfold Apu.write_dmc_register
  dsimp only
  repeat' split
  all_goals first | exact h | exact Nat.and_le_right

/-- Every APU register write keeps the DMC output level at most 127. -/
theorem Apu.cpu_write_output_level (a : Apu) (addr data : Nat)
    (h : a.dmc.output_level ≤ 127) :
    (a.cpu_write addr data).dmc.output_level ≤ 127 := by
  unfold Apu.cpu_write
  repeat' split
  all_goals first
    | exact h
    | exact Apu.write_dmc_register_output_level _ _ _ h
    | (rw [Apu.write_status_register_output_level]; exact h)
    | (rw [Apu.write_frame_counter_register_dmc]; exact h)

/-- Supplying a DMC sample byte never changes the output level. -/
theorem Apu.dmc_provide_data_output_level (a : Apu) (d : Nat) :
    (a.dmc_provide_data d).dmc.output_level = a.dmc.output_level := by
  unfold Apu.dmc_provide_data
  dsimp only
  repeat' split
  all_goals rfl

/-- APU register reads leave the DMC channel untouched. -/
theorem Apu.cpu_read_snd_dmc (a : Apu) (addr : Nat) :
    ((a.cpu_read addr).2).dmc = a.dmc := by
  unfold Apu.cpu_read
  repeat' split
  all_goals rfl

/-- Every single APU operation preserves the DMC output-level bound. -/
theorem applyOp_output_level (a : Apu) (op : ApuOp)
    (h : a.dmc.output_level ≤ 127) :
    (applyOp a op).dmc.output_level ≤ 127 := by
  cases op with
  | clock =>
    show (a.clock).dmc.output_level ≤ 127
    rw [Apu.clock_dmc]
    exact DmcChannel.clock_timer_output_level _ h
  | write addr data => exact Apu.cpu_write_output_level a addr data h
  | read addr =>
    show ((a.cpu_read addr).2).dmc.output_level ≤ 127
    rw [Apu.cpu_read_snd_dmc]
    exact h
  | provideData d =>
    show (a.dmc_provide_data d).dmc.output_level ≤ 127
    rw [Apu.dmc_provide_data_output_level]
    exact h

/-- Every sequence of APU operations preserves the DMC output-level bound. -/
theorem applyOps_output_level (ops : List ApuOp) :
    ∀ a : Apu, a.dmc.output_level ≤ 127 →
      (applyOps a ops).dmc.output_level ≤ 127 := by
  induction ops with
  | nil => intro a h; exact h
  | cons op ops ih =>
    intro a h
    exact ih (applyOp a op) (applyOp_output_level a op h)

/-- C7: for every reachable APU state — the default state followed by any sequence of clocks, register writes, register reads and DMC sample deliveries (0x4011 writes included) — the DMC output level remains within [0, 127]. -/
theorem c7_dmc_output_level_bounded (ops : List ApuOp) :
    0 ≤ (applyOps Apu.default ops).dmc.output_level ∧
    (applyOps Apu.default ops).dmc.output_level ≤ 127 :=
  ⟨Nat.zero_le _, applyOps_output_level ops Apu.default (by decide)⟩

/-- A bitwise or with a nonzero left operand is nonzero. -/
theorem lor_ne_zero_left (a b : Nat) (h : a ≠ 0) : a ||| b ≠ 0 := by
  obtain ⟨i, hi⟩ := Nat.ne_zero_implies_bit_true h
  intro hz
  have ht := Nat.testBit_or a b i
  rw [hz] at ht
  simp [hi] at ht

/-- One LFSR clock keeps the shift register inside [1, 0x7FFF]: the 15-bit width is preserved by the shift-and-or, and the feedback bit makes 0 unreachable from a nonzero register. -/
theorem NoiseChannel.clock_shift_register_range (n : NoiseChannel)
    (h1 : 1 ≤ n.shift_register) (h2 : n.shift_register ≤ 0x7FFF) :
    1 ≤ (n.clock_shift_register).shift_register ∧
    (n.clock_shift_register).shift_register ≤ 0x7FFF := by
  unfold NoiseChannel.clock_shift_register
  dsimp only
  constructor
  · by_cases hge : 2 ≤ n.shift_register
    · have hdiv : n.shift_register >>> 1 ≠ 0 := by
        rw [Nat.shiftRight_eq_div_pow]
        simp only [pow_one]
        omega
      exact Nat.pos_of_ne_zero (lor_ne_zero_left _ _ hdiv)
    · have h1' : n.shift_register = 1 := by omega
      rw [h1']
      cases hm : n.mode <;> simp [hm]
  · have c1 : n.shift_register &&& 1 ≤ 1 := Nat.and_le_right
    have c2 : (if n.mode then (n.shift_register >>> 6) &&& 1
               else (n.shift_register >>> 1) &&& 1) ≤ 1 := by
      split <;> exact Nat.and_le_right
    have hfle : (n.shift_register &&& 1) ^^^
        (if n.mode then (n.shift_register >>> 6) &&& 1
         else (n.shift_register >>> 1) &&& 1) ≤ 1 := by
      rcases Nat.le_one_iff_eq_zero_or_eq_one.mp c1 with h | h <;>
      rcases Nat.le_one_iff_eq_zero_or_eq_one.mp c2 with h' | h' <;>
        rw [h, h'] <;> decide
    have hlow : n.shift_register >>> 1 < 32768 := by
      rw [Nat.shiftRight_eq_div_pow]
      simp only [pow_one]
      omega
    have hhigh : ((n.shift_register &&& 1) ^^^
        (if n.mode then (n.shift_register >>> 6) &&& 1
         else (n.shift_register >>> 1) &&& 1)) <<< 14 < 32768 := by
      rw [Nat.shiftLeft_eq]
      calc _ ≤ 1 * 2 ^ 14 := Nat.mul_le_mul_right _ hfle
        _ < 32768 := by norm_num
    have h15 : (2 : Nat) ^ 15 = 32768 := by norm_num
    have hor : n.shift_register >>> 1 |||
        ((n.shift_register &&& 1) ^^^
          (if n.mode then (n.shift_register >>> 6) &&& 1
           else (n.shift_register >>> 1) &&& 1)) <<< 14 < 2 ^ 15 :=
      Nat.or_lt_two_pow (h15.symm ▸ hlow) (h15.symm ▸ hhigh)
    omega

/-- The noise timer preserves the LFSR range. -/
theorem NoiseChannel.clock_timer_range (n : NoiseChannel)
    (h1 : 1 ≤ n.shift_register) (h2 : n.shift_register ≤ 0x7FFF) :
    1 ≤ (n.clock_timer).shift_register ∧ (n.clock_timer).shift_register ≤ 0x7FFF := by
  unfold NoiseChannel.clock_timer
  repeat' split
  all_goals first
    | exact ⟨h1, h2⟩
    | exact NoiseChannel.clock_shift_register_range _ h1 h2

/-- Checking for a DMC read request leaves the noise channel untouched. -/
theorem Apu.check_dmc_read_request_noise (a : Apu) :
    (a.check_dmc_read_request).noise = a.noise := by
  unfold Apu.check_dmc_read_request
  split <;> rfl

/-- Clocking the noise envelope leaves the shift register untouched. -/
theorem NoiseChannel.clock_envelope_sr (n : NoiseChannel) :
    (n.clock_envelope).shift_register = n.shift_register := rfl

/-- Clocking the noise length counter leaves the shift register untouched. -/
theorem NoiseChannel.clock_length_counter_sr (n : NoiseChannel) :
    (n.clock_length_counter).shift_register = n.shift_register := by
  unfold NoiseChannel.clock_length_counter
  split <;> rfl

/-- A quarter-frame event leaves the noise shift register untouched. -/
theorem Apu.quarter_frame_noise_sr (a : Apu) :
    (a.clock_envelopes_and_linear_counter).noise.shift_register = a.noise.shift_register := rfl

/-- A half-frame event leaves the noise shift register untouched. -/
theorem Apu.half_frame_noise_sr (a : Apu) :
    (a.clock_length_counters_and_sweep_units).noise.shift_register = a.noise.shift_register :=
  NoiseChannel.clock_length_counter_sr _

/-- The frame-counter step leaves the noise shift register untouched. -/
theorem Apu.frame_counter_step_noise_sr (a : Apu) :
    (a.frame_counter_step).noise.shift_register = a.noise.shift_register := by
  unfold Apu.frame_counter_step
  dsimp only
  split <;>
    (simp only [apply_ite (fun x : Apu => x.noise.shift_register)]; repeat' split) <;>
    first
      | rfl
      | simp only [Apu.half_frame_noise_sr, Apu.quarter_frame_noise_sr]

/-- One `Apu::clock` either clocks the noise timer (even cycles) or leaves the shift register untouched (odd cycles). -/
theorem Apu.clock_noise_sr (a : Apu) :
    (a.clock).noise.shift_register = (a.noise.clock_timer).shift_register ∨
    (a.clock).noise.shift_register = a.noise.shift_register := by
  unfold Apu.clock
  dsimp only
  split
  · right
    rw [Apu.check_dmc_read_request_noise]
  · left
    rw [Apu.frame_counter_step_noise_sr]
    show (Apu.check_dmc_read_request _).noise.shift_register = _
    rw [Apu.check_dmc_read_request_noise]

/-- No noise register write (0x400C/0x400E/0x400F) touches the shift register. -/
theorem Apu.write_noise_register_sr (n : NoiseChannel) (addr data : Nat) :
    (Apu.write_noise_register n addr data).shift_register = n.shift_register := by
  unfold Apu.write_noise_register
  repeat' split
  all_goals rfl

/-- A write to 0x4015 leaves the noise shift register untouched. -/
theorem Apu.write_status_register_noise_sr (a : Apu) (data : Nat) :
    (a.write_status_register data).noise.shift_register = a.noise.shift_register := by
  unfold Apu.write_status_register
  dsimp only
  simp only [apply_ite (fun x : Apu => x.noise.shift_register)]
  simp only [ite_self]

/-- A write to 0x4017 leaves the noise shift register untouched. -/
theorem Apu.write_frame_counter_register_noise_sr (a : Apu) (data : Nat) :
    (a.write_frame_counter_register data).noise.shift_register = a.noise.shift_register := by
  unfold Apu.write_frame_counter_register
  dsimp only
  split <;> (repeat' split) <;>
    first
      | rfl
      | simp only [Apu.half_frame_noise_sr, Apu.quarter_frame_noise_sr]

/-- No APU register write ever modifies the noise shift register. -/
theorem Apu.cpu_write_noise_sr (a : Apu) (addr data : Nat) :
    (a.cpu_write addr data).noise.shift_register = a.noise.shift_register := by
  unfold Apu.cpu_write
  repeat' split
  all_goals first
    | rfl
    | exact Apu.write_noise_register_sr _ _ _
    | exact Apu.write_status_register_noise_sr _ _
    | exact Apu.write_frame_counter_register_noise_sr _ _

/-- Every single APU operation keeps the LFSR in [1, 0x7FFF]. -/
theorem applyOp_noise_sr_range (a : Apu) (op : ApuOp)
    (h1 : 1 ≤ a.noise.shift_register) (h2 : a.noise.shift_register ≤ 0x7FFF) :
    1 ≤ (applyOp a op).noise.shift_register ∧
    (applyOp a op).noise.shift_register ≤ 0x7FFF := by
  cases op with
  | clock =>
    show 1 ≤ (a.clock).noise.shift_register ∧ (a.clock).noise.shift_register ≤ 0x7FFF
    rcases Apu.clock_noise_sr a with h | h <;> rw [h]
    · exact NoiseChannel.clock_timer_range _ h1 h2
    · exact ⟨h1, h2⟩
  | write addr data =>
    show 1 ≤ (a.cpu_write addr data).noise.shift_register ∧
        (a.cpu_write addr data).noise.shift_register ≤ 0x7FFF
    rw [Apu.cpu_write_noise_sr]
    exact ⟨h1, h2⟩
  | read addr =>
    have h : ((a.cpu_read addr).2).noise = a.noise := by
      unfold Apu.cpu_read
      repeat' split
      all_goals rfl
    show 1 ≤ ((a.cpu_read addr).2).noise.shift_register ∧
        ((a.cpu_read addr).2).noise.shift_register ≤ 0x7FFF
    rw [h]
    exact ⟨h1, h2⟩
  | provideData d =>
    show 1 ≤ (a.dmc_provide_data d).noise.shift_register ∧
        (a.dmc_provide_data d).noise.shift_register ≤ 0x7FFF
    exact ⟨h1, h2⟩

/-- Every sequence of APU operations keeps the LFSR in [1, 0x7FFF]. -/
theorem applyOps_noise_sr_range (ops : List ApuOp) :
    ∀ a : Apu, 1 ≤ a.noise.shift_register → a.noise.shift_register ≤ 0x7FFF →
      1 ≤ (applyOps a ops).noise.shift_register ∧
      (applyOps a ops).noise.shift_register ≤ 0x7FFF := by
  induction ops with
  | nil => intro a h1 h2; exact ⟨h1, h2⟩
  | cons op ops ih =>
    intro a h1 h2
    have h := applyOp_noise_sr_range a op h1 h2
    exact ih (applyOp a op) h.1 h.2

/-- C10: starting from the initial LFSR value 1, under any sequence of clocks, register writes, register reads and DMC sample deliveries, the noise shift register is never 0 and always fits in 15 bits (it stays in [1, 0x7FFF]); moreover register writes never modify the shift register, so the noise generator can never permanently die. -/
theorem c10_noise_lfsr_never_dies :
    (∀ ops : List ApuOp,
      1 ≤ (applyOps Apu.default ops).noise.shift_register ∧
      (applyOps Apu.default ops).noise.shift_register ≤ 0x7FFF) ∧
    (∀ (a : Apu) (addr data : Nat),
      (a.cpu_write addr data).noise.shift_register = a.noise.shift_register) :=
  ⟨fun ops => applyOps_noise_sr_range ops Apu.default (by decide) (by decide),
   Apu.cpu_write_noise_sr⟩
